import Mathlib

/- Shallow embedding of the risk-fusion logic of mediaproofai/forensic-service.

   The embedded code is the "titanium-v3" handler of src/api/analyze.js
   together with the "nuclear-v1" handler (src/unnamed/part_003) and the
   "titanium-v1" handler (src/unnamed/part_004).  JS numbers are modelled by
   exact rationals (every constant in the source is an exact decimal), and the
   one division that can produce NaN (the 0/0 in calculatePhysics on an empty
   buffer) is modelled by an Option-valued division, none standing for NaN. -/

/-- Verdict classification, from `finalRisk > 0.5 ? "SYNTHETIC" : "ORGANIC"`. -/
inductive Classification where
  | ORGANIC
  | SYNTHETIC
deriving DecidableEq, Repr

/-- The signal bundle consumed by the titanium-v3 fusion steps (steps 4-8 of
    the handler in src/api/analyze.js).  `modelScores` are the council scores
    (`r.score`), `detectionSource` the name recorded for the maximal score,
    `entropy`/`variance` the `calculatePhysics` output, `hasCamera` the EXIF
    flag, `isPng` the magic-byte sniff, `lightingFlat` whether
    `calculateAdvancedForensics` reported a FLAT/ARTIFICIAL
    `lighting_naturalness`, and `elaMismatch` its `ela_mismatch` ratio. -/
structure Evidence where
  modelScores : List ℚ
  detectionSource : String
  entropy : ℚ
  variance : ℚ
  hasCamera : Bool
  isPng : Bool
  lightingFlat : Bool
  elaMismatch : ℚ
deriving DecidableEq

/-- Output record of one fusion run: `aiProbability`, `classification`,
    `detection_method` of the JSON verdict. -/
structure Verdict where
  risk : ℚ
  classification : Classification
  method : String
deriving DecidableEq

/-- `maxAiScore`: starts at 0 and takes every council score that beats the
    running maximum (src/api/analyze.js, step 4). -/
def maxAiScore (e : Evidence) : ℚ :=
  e.modelScores.foldl max 0

/-- Physics score of titanium-v3 (step 5): `entropy < 6.0` adds 0.6,
    `entropy > 7.9` adds 0.6, `variance < 2000` adds 0.3, then
    `Math.min(physicsScore, 0.95)`. -/
def physicsScore (e : Evidence) : ℚ :=
  min ((if e.entropy < 6 then 0.6 else 0) + (if e.entropy > 7.9 then 0.6 else 0) +
    (if e.variance < 2000 then 0.3 else 0)) 0.95

/-- Advanced-forensics risk of titanium-v3 (step 6): flat lighting adds 0.4,
    `ela_mismatch > 0.15` adds 0.5. -/
def advancedRisk (e : Evidence) : ℚ :=
  (if e.lightingFlat = true then 0.4 else 0) + (if e.elaMismatch > 0.15 then 0.5 else 0)

/-- Format anomaly of titanium-v3 (step 7): `if (isPng && !hasCamera) formatRisk = 0.95`. -/
def formatRisk (e : Evidence) : ℚ :=
  if e.isPng = true ∧ e.hasCamera = false then 0.95 else 0

/-- Step 8 of titanium-v3: `Math.max(maxAiScore, physicsScore, formatRisk, advancedRisk)`. -/
def finalRisk0 (e : Evidence) : ℚ :=
  max (max (max (maxAiScore e) (physicsScore e)) (formatRisk e)) (advancedRisk e)

/-- Base `detectionMethod` attribution of titanium-v3, before the
    missing-origin suffix and the uncertainty floor. -/
def baseMethod (e : Evidence) : String :=
  if formatRisk e > maxAiScore e ∧ formatRisk e > physicsScore e then
    "FORMAT_ANOMALY (PNG_NO_EXIF)"
  else if advancedRisk e > 0.8 then "ADVANCED_FORENSICS (ELA/LIGHTING)"
  else if physicsScore e > maxAiScore e then "PHYSICS_ENGINE (ENTROPY_MISMATCH)"
  else if maxAiScore e > 0.5 then "NEURAL_NET (" ++ e.detectionSource ++ ")"
  else "UNCERTAIN"

/-- Risk after the missing-origin escalation of titanium-v3:
    `if (maxAiScore > 0.15 && !hasCamera) finalRisk = Math.max(finalRisk, 0.90)`. -/
def riskAfterEsc (e : Evidence) : ℚ :=
  if maxAiScore e > 0.15 ∧ e.hasCamera = false then max (finalRisk0 e) 0.9 else finalRisk0 e

/-- Method after the missing-origin escalation, which appends " + MISSING_ORIGIN". -/
def methodAfterEsc (e : Evidence) : String :=
  if maxAiScore e > 0.15 ∧ e.hasCamera = false then baseMethod e ++ " + MISSING_ORIGIN"
  else baseMethod e

/-- `finalRisk > 0.5 ? "SYNTHETIC" : "ORGANIC"`. -/
def classify (r : ℚ) : Classification :=
  if r > 0.5 then Classification.SYNTHETIC else Classification.ORGANIC

/-- The full titanium-v3 fusion: escalation, then the uncertainty floor
    `if (finalRisk < 0.1 && !hasCamera) { finalRisk = 0.45; detectionMethod =
    "HEURISTIC_UNCERTAINTY" }`, then the verdict fields of the JSON response. -/
def fuse (e : Evidence) : Verdict :=
  if riskAfterEsc e < 0.1 ∧ e.hasCamera = false then
    { risk := 0.45, classification := classify 0.45, method := "HEURISTIC_UNCERTAINTY" }
  else
    { risk := riskAfterEsc e, classification := classify (riskAfterEsc e),
      method := methodAfterEsc e }

/-- Physics score of nuclear-v1 (src/unnamed/part_003, step 5): `entropy < 4.2`
    adds 0.4, `variance < 1000` adds 0.3, `!hasCamera` adds 0.2. -/
def physicsScoreN (e : Evidence) : ℚ :=
  (if e.entropy < 4.2 then 0.4 else 0) + (if e.variance < 1000 then 0.3 else 0) +
    (if e.hasCamera = false then 0.2 else 0)

/-- Nuclear-v1 risk after the paranoid boost:
    `if (finalRisk > 0.5 && !hasCamera) finalRisk = Math.min(finalRisk + 0.15, 0.99)`. -/
def riskAfterBoostN (e : Evidence) : ℚ :=
  if max (maxAiScore e) (physicsScoreN e) > 0.5 ∧ e.hasCamera = false then
    min (max (maxAiScore e) (physicsScoreN e) + 0.15) 0.99
  else max (maxAiScore e) (physicsScoreN e)

/-- Nuclear-v1 final risk after the fail-safe
    `if (finalRisk < 0.1 && !hasCamera) finalRisk = 0.45`. -/
def nuclearRisk (e : Evidence) : ℚ :=
  if riskAfterBoostN e < 0.1 ∧ e.hasCamera = false then 0.45 else riskAfterBoostN e

/-- The nuclear-v1 verdict (src/unnamed/part_003): method is
    `maxAiScore > physicsScore ? "NEURAL_NET" : "PHYSICS_ENGINE"`. -/
def fuseNuclear (e : Evidence) : Verdict :=
  { risk := nuclearRisk e, classification := classify (nuclearRisk e),
    method := if maxAiScore e > physicsScoreN e then "NEURAL_NET" else "PHYSICS_ENGINE" }

/-- Physics score of titanium-v1 (src/unnamed/part_004): `entropy < 5.5` adds
    0.45, `entropy > 7.8` adds 0.40; no variance term and no clamp. -/
def physicsScoreT1 (e : Evidence) : ℚ :=
  (if e.entropy < 5.5 then 0.45 else 0) + (if e.entropy > 7.8 then 0.4 else 0)

/-- Titanium-v1 step 5: `Math.max(maxAiScore, physicsScore, formatRisk)`. -/
def finalRiskT10 (e : Evidence) : ℚ :=
  max (max (maxAiScore e) (physicsScoreT1 e)) (formatRisk e)

/-- Titanium-v1 aggressive boost:
    `if (maxAiScore > 0.15 && !hasCamera) finalRisk = Math.max(finalRisk, 0.90)`. -/
def riskT1 (e : Evidence) : ℚ :=
  if maxAiScore e > 0.15 ∧ e.hasCamera = false then max (finalRiskT10 e) 0.9
  else finalRiskT10 e

/-- The titanium-v1 verdict (src/unnamed/part_004). -/
def fuseT1 (e : Evidence) : Verdict :=
  { risk := riskT1 e, classification := classify (riskT1 e),
    method := if formatRisk e > 0.8 then "FORMAT_ANOMALY" else "NEURAL_ENSEMBLE" }

/-- PNG magic-byte sniff: `buffer[0] === 0x89 && buffer[1] === 0x50`
    (out-of-range reads yield undefined in JS, so short buffers sniff false). -/
def isPngSig : List ℕ → Bool
  | b0 :: b1 :: _ => b0 == 0x89 && b1 == 0x50
  | _ => false

/-- One entry of a classifier response array: `{ label, score }`. -/
structure LabeledScore where
  label : String
  score : ℚ
deriving DecidableEq

/-- ASCII lower-casing of one character code, modelling the `/i` regex flag. -/
def lowCode (n : ℕ) : ℕ :=
  if 65 ≤ n ∧ n ≤ 90 then n + 32 else n

/-- Lower-cased character codes of a string. -/
def codesOf (s : String) : List ℕ :=
  s.data.map (fun c => lowCode c.toNat)

/-- Whether the first list is an initial run of the second. -/
def strStarts : List ℕ → List ℕ → Bool
  | [], _ => true
  | _ :: _, [] => false
  | a :: as, b :: bs => a == b && strStarts as bs

/-- Whether the pattern occurs contiguously anywhere in the list (regex
    alternation of literal patterns reduces to this containment test). -/
def strHas (pat : List ℕ) : List ℕ → Bool
  | [] => strStarts pat []
  | b :: bs => strStarts pat (b :: bs) || strHas pat bs

/-- `label.match(/p1|p2|.../i)`: some literal pattern occurs, case-insensitively. -/
def labelHasAny (pats : List String) (label : String) : Bool :=
  pats.any (fun p => strHas (codesOf p) (codesOf label))

/-- The fake-label alternatives of `queryModel`: `/artific|fake|cg|synth/i`. -/
def fakePats : List String := ["artific", "fake", "cg", "synth"]

/-- The real-label alternatives of `queryModel`: `/real|human/i`. -/
def realPats : List String := ["real", "human"]

/-- Normalization of one classifier response by `queryModel`
    (src/api/analyze.js): none stands for every failure path (network error,
    thrown exception, non-array JSON), which the catch-all returns as score 0.
    On an array, the first fake-matching label's score is used, else one minus
    the first real-matching label's score, else 0. -/
def queryNormalize : Option (List LabeledScore) → ℚ
  | Option.none => 0
  | Option.some arr =>
    match arr.find? (fun x => labelHasAny fakePats x.label) with
    | Option.some x => x.score
    | Option.none =>
      match arr.find? (fun x => labelHasAny realPats x.label) with
      | Option.some x => 1 - x.score
      | Option.none => 0

/-- Sampling stride of `calculatePhysics`: `Math.floor(buffer.length / 5000) || 1`. -/
def stride (len : ℕ) : ℕ :=
  if len / 5000 = 0 then 1 else len / 5000

/-- Indices visited by `for (let i = 0; i < buffer.length; i += step)`. -/
def sampleIdx (len : ℕ) : List ℕ :=
  (List.range len).filter (fun i => i % stride len = 0)

/-- The stride-sampled bytes of the buffer. -/
def sampledBytes (buf : List ℕ) : List ℕ :=
  (sampleIdx buf.length).map (fun i => buf.getD i 0)

/-- `total`, the number of sampled bytes. -/
def totalCount (buf : List ℕ) : ℕ :=
  (sampledBytes buf).length

/-- `counts[b]`, the histogram entry for byte value `b`. -/
def countOf (buf : List ℕ) (b : ℕ) : ℕ :=
  (sampledBytes buf).count b

/-- JS division restricted to the shapes occurring in `calculatePhysics`:
    denominators are nonnegative counts, so the only non-finite outcome is
    `0/0 = NaN`, modelled as none. -/
def jsDiv (a b : ℚ) : Option ℚ :=
  if b = 0 then Option.none else Option.some (a / b)

/-- `mean = sum / total` of `calculatePhysics` (NaN on an empty sample). -/
def physicsMean (buf : List ℕ) : Option ℚ :=
  jsDiv ((sampledBytes buf).sum : ℕ) (totalCount buf : ℕ)

/-- `variance = varianceSum / total` of `calculatePhysics`, where
    `varianceSum = Σ (buffer[i] - mean)^2` over the sampled bytes.  A NaN mean
    propagates (the empty loop leaves varianceSum = 0 and 0/0 is again NaN). -/
def physicsVariance (buf : List ℕ) : Option ℚ :=
  match physicsMean buf with
  | Option.none => Option.none
  | Option.some m => jsDiv (((sampledBytes buf).map (fun x => ((x : ℚ) - m) ^ 2)).sum)
      (totalCount buf : ℕ)

/-- Shannon entropy of `calculatePhysics`: `entropy -= p * Math.log2(p)` over
    the 256 histogram entries, skipping `count === 0`.  Every division that is
    actually evaluated has a positive denominator, so the value is a genuine
    real number; it is expressed directly over ℝ. -/
noncomputable def physicsEntropy (buf : List ℕ) : ℝ :=
  ∑ b in Finset.range 256,
    (if countOf buf b = 0 then 0 else
      -(((countOf buf b : ℝ) / (totalCount buf : ℝ)) *
        Real.logb 2 ((countOf buf b : ℝ) / (totalCount buf : ℝ))))

/- ------------------------------------------------------------------ -/
/- Helper lemmas (shared)                                             -/
/- ------------------------------------------------------------------ -/

lemma le_foldlMax (l : List ℚ) : ∀ a : ℚ, a ≤ l.foldl max a := by
  induction l with
  | nil => intro a; exact le_refl a
  | cons x xs ih => intro a; exact le_trans (le_max_left a x) (ih (max a x))

lemma foldlMax_le (l : List ℚ) : ∀ a c : ℚ, a ≤ c → (∀ x ∈ l, x ≤ c) → l.foldl max a ≤ c := by
  induction l with
  | nil => intro a c ha _; exact ha
  | cons x xs ih =>
    intro a c ha h
    exact ih (max a x) c (max_le ha (h x (List.mem_cons_self x xs)))
      (fun y hy => h y (List.mem_cons_of_mem x hy))

lemma mem_le_foldlMax (l : List ℚ) : ∀ a x : ℚ, x ∈ l → x ≤ l.foldl max a := by
  induction l with
  | nil => intro a x hx; cases hx
  | cons y ys ih =>
    intro a x hx
    rcases List.mem_cons.mp hx with h | h
    · subst h; exact le_trans (le_max_right a x) (le_foldlMax ys (max a x))
    · exact ih (max a y) x h

lemma maxAiScore_nonneg (e : Evidence) : 0 ≤ maxAiScore e :=
  le_foldlMax e.modelScores 0

lemma maxAiScore_le (e : Evidence) (c : ℚ) (hc : 0 ≤ c)
    (h : ∀ s ∈ e.modelScores, s ≤ c) : maxAiScore e ≤ c :=
  foldlMax_le e.modelScores 0 c hc h

lemma le_maxAiScore (e : Evidence) (s : ℚ) (hs : s ∈ e.modelScores) : s ≤ maxAiScore e :=
  mem_le_foldlMax e.modelScores 0 s hs

lemma maxAiScore_eq_zero (e : Evidence) (h : ∀ s ∈ e.modelScores, s = 0) :
    maxAiScore e = 0 :=
  le_antisymm (maxAiScore_le e 0 (le_refl 0) (fun s hs => le_of_eq (h s hs)))
    (maxAiScore_nonneg e)

lemma physicsScore_nonneg (e : Evidence) : 0 ≤ physicsScore e := by
  unfold physicsScore
  refine le_min ?_ (by norm_num)
  split_ifs <;> norm_num

lemma physicsScore_le (e : Evidence) : physicsScore e ≤ 0.9 := by
  unfold physicsScore
  split_ifs with h1 h2 h3 <;>
    first
      | (exfalso; linarith)
      | exact le_trans (min_le_left _ _) (by norm_num)

lemma advancedRisk_nonneg (e : Evidence) : 0 ≤ advancedRisk e := by
  unfold advancedRisk
  split_ifs <;> norm_num

lemma advancedRisk_le (e : Evidence) : advancedRisk e ≤ 0.9 := by
  unfold advancedRisk
  split_ifs <;> norm_num

lemma formatRisk_nonneg (e : Evidence) : 0 ≤ formatRisk e := by
  unfold formatRisk
  split_ifs <;> norm_num

lemma formatRisk_le (e : Evidence) : formatRisk e ≤ 0.95 := by
  unfold formatRisk
  split_ifs <;> norm_num

lemma maxAiScore_le_finalRisk0 (e : Evidence) : maxAiScore e ≤ finalRisk0 e := by
  unfold finalRisk0
  calc maxAiScore e ≤ max (maxAiScore e) (physicsScore e) := le_max_left _ _
    _ ≤ max (max (maxAiScore e) (physicsScore e)) (formatRisk e) := le_max_left _ _
    _ ≤ _ := le_max_left _ _

lemma physicsScore_le_finalRisk0 (e : Evidence) : physicsScore e ≤ finalRisk0 e := by
  unfold finalRisk0
  calc physicsScore e ≤ max (maxAiScore e) (physicsScore e) := le_max_right _ _
    _ ≤ max (max (maxAiScore e) (physicsScore e)) (formatRisk e) := le_max_left _ _
    _ ≤ _ := le_max_left _ _

lemma formatRisk_le_finalRisk0 (e : Evidence) : formatRisk e ≤ finalRisk0 e := by
  unfold finalRisk0
  calc formatRisk e ≤ max (max (maxAiScore e) (physicsScore e)) (formatRisk e) :=
      le_max_right _ _
    _ ≤ _ := le_max_left _ _

lemma advancedRisk_le_finalRisk0 (e : Evidence) : advancedRisk e ≤ finalRisk0 e :=
  le_max_right _ _

lemma finalRisk0_nonneg (e : Evidence) : 0 ≤ finalRisk0 e :=
  le_trans (maxAiScore_nonneg e) (maxAiScore_le_finalRisk0 e)

lemma finalRisk0_le_one (e : Evidence) (h : ∀ s ∈ e.modelScores, s ≤ 1) :
    finalRisk0 e ≤ 1 := by
  unfold finalRisk0
  exact max_le (max_le (max_le (maxAiScore_le e 1 (by norm_num) h)
    (le_trans (physicsScore_le e) (by norm_num)))
    (le_trans (formatRisk_le e) (by norm_num)))
    (le_trans (advancedRisk_le e) (by norm_num))

lemma riskAfterEsc_nonneg (e : Evidence) : 0 ≤ riskAfterEsc e := by
  unfold riskAfterEsc
  split_ifs
  · exact le_trans (finalRisk0_nonneg e) (le_max_left _ _)
  · exact finalRisk0_nonneg e

lemma riskAfterEsc_le_one (e : Evidence) (h : ∀ s ∈ e.modelScores, s ≤ 1) :
    riskAfterEsc e ≤ 1 := by
  unfold riskAfterEsc
  split_ifs
  · exact max_le (finalRisk0_le_one e h) (by norm_num)
  · exact finalRisk0_le_one e h

lemma finalRisk0_le_riskAfterEsc (e : Evidence) : finalRisk0 e ≤ riskAfterEsc e := by
  unfold riskAfterEsc
  split_ifs
  · exact le_max_left _ _
  · exact le_refl _

lemma fuse_risk_eq (e : Evidence) :
    (fuse e).risk =
      if riskAfterEsc e < 0.1 ∧ e.hasCamera = false then 0.45 else riskAfterEsc e := by
  unfold fuse
  split_ifs <;> rfl

lemma fuse_method_eq (e : Evidence) :
    (fuse e).method =
      if riskAfterEsc e < 0.1 ∧ e.hasCamera = false then "HEURISTIC_UNCERTAINTY"
      else methodAfterEsc e := by
  unfold fuse
  split_ifs <;> rfl

lemma fuse_class_eq (e : Evidence) : (fuse e).classification = classify ((fuse e).risk) := by
  unfold fuse
  split_ifs <;> rfl

lemma physicsScoreN_nonneg (e : Evidence) : 0 ≤ physicsScoreN e := by
  unfold physicsScoreN
  split_ifs <;> norm_num

lemma physicsScoreN_le (e : Evidence) : physicsScoreN e ≤ 0.9 := by
  unfold physicsScoreN
  split_ifs <;> norm_num

lemma riskAfterBoostN_nonneg (e : Evidence) : 0 ≤ riskAfterBoostN e := by
  unfold riskAfterBoostN
  have h0 : 0 ≤ max (maxAiScore e) (physicsScoreN e) :=
    le_trans (maxAiScore_nonneg e) (le_max_left _ _)
  split_ifs
  · exact le_min (by linarith) (by norm_num)
  · exact h0

lemma riskAfterBoostN_le_one (e : Evidence) (h : ∀ s ∈ e.modelScores, s ≤ 1) :
    riskAfterBoostN e ≤ 1 := by
  unfold riskAfterBoostN
  split_ifs
  · exact le_trans (min_le_right _ _) (by norm_num)
  · exact max_le (maxAiScore_le e 1 (by norm_num) h)
      (le_trans (physicsScoreN_le e) (by norm_num))

/- ------------------------------------------------------------------ -/
/- C1                                                                 -/
/- ------------------------------------------------------------------ -/

/-- C1: for every EvidenceBundle whose model scores all lie in [0,1], the
    `aiProbability` (risk) of the fused verdict lies in [0,1], in the
    titanium-v3 handler and in the nuclear-v1 handler alike, whatever
    penalties, format risk, escalation or floor rules fire. -/
theorem fuse_risk_in_unit_interval (e : Evidence)
    (h : ∀ s ∈ e.modelScores, 0 ≤ s ∧ s ≤ 1) :
    (0 ≤ (fuse e).risk ∧ (fuse e).risk ≤ 1) ∧
    (0 ≤ (fuseNuclear e).risk ∧ (fuseNuclear e).risk ≤ 1) := by
  have hub : ∀ s ∈ e.modelScores, s ≤ 1 := fun s hs => (h s hs).2
  constructor
  · rw [fuse_risk_eq]
    split_ifs
    · constructor <;> norm_num
    · exact ⟨riskAfterEsc_nonneg e, riskAfterEsc_le_one e hub⟩
  · show 0 ≤ nuclearRisk e ∧ nuclearRisk e ≤ 1
    unfold nuclearRisk
    split_ifs
    · constructor <;> norm_num
    · exact ⟨riskAfterBoostN_nonneg e, riskAfterBoostN_le_one e hub⟩

lemma scores01_valid : ∀ s ∈ ([0, 1] : List ℚ), 0 ≤ s ∧ s ≤ 1 := by
  intro s hs
  rcases List.mem_cons.mp hs with h | h
  · subst h; norm_num
  · rw [List.mem_singleton] at h
    subst h; norm_num

/-- Concrete bundle used by the C1 witness: two council scores 0 and 1. -/
def sampleBundleC1 : Evidence :=
  { modelScores := [0, 1], detectionSource := "s", entropy := 7, variance := 3000,
    hasCamera := true, isPng := false, lightingFlat := false, elaMismatch := 0 }

/-- Witness for C1 at a concrete bundle. -/
theorem fuse_risk_in_unit_interval_witness :
    (∀ s ∈ sampleBundleC1.modelScores, 0 ≤ s ∧ s ≤ 1) ∧
    ((0 ≤ (fuse sampleBundleC1).risk ∧ (fuse sampleBundleC1).risk ≤ 1) ∧
     (0 ≤ (fuseNuclear sampleBundleC1).risk ∧ (fuseNuclear sampleBundleC1).risk ≤ 1)) :=
  ⟨scores01_valid, fuse_risk_in_unit_interval sampleBundleC1 scores01_valid⟩

/- ------------------------------------------------------------------ -/
/- C2                                                                 -/
/- ------------------------------------------------------------------ -/

/-- Bundle refuting C2 on titanium-v3: the advanced-forensics signal (flat
    lighting plus high ELA mismatch) dominates, all three claimed signals are 0. -/
def advBundleC2 : Evidence :=
  { modelScores := [], detectionSource := "None", entropy := 7, variance := 3000,
    hasCamera := true, isPng := false, lightingFlat := true, elaMismatch := 0.2 }

/-- C2 counterexample: in titanium-v3 (src/api/analyze.js line 278) the
    pre-escalation fused risk is not the maximum of modelScore, physicsScore
    and formatRisk alone: at this bundle that maximum is 0 while the fused
    value is 0.9, contributed by advancedRisk. -/
theorem preEscalation_not_max_of_three :
    finalRisk0 advBundleC2 = 0.9 ∧
    max (max (maxAiScore advBundleC2) (physicsScore advBundleC2))
      (formatRisk advBundleC2) = 0 := by
  norm_num [advBundleC2, finalRisk0, maxAiScore, physicsScore, advancedRisk,
    formatRisk, max_def, min_def]

/-- C2 (amended): in titanium-v3 the pre-escalation fused risk is exactly the
    maximum of the four signals modelScore, physicsScore, formatRisk and
    advancedRisk (it dominates each of them and coincides with one of them);
    in titanium-v1 (src/unnamed/part_004) it is exactly the maximum of the
    three signals modelScore, physicsScore, formatRisk, as the claim states. -/
theorem preEscalation_fused_risk_is_max (e : Evidence) :
    (maxAiScore e ≤ finalRisk0 e ∧ physicsScore e ≤ finalRisk0 e ∧
     formatRisk e ≤ finalRisk0 e ∧ advancedRisk e ≤ finalRisk0 e ∧
     (finalRisk0 e = maxAiScore e ∨ finalRisk0 e = physicsScore e ∨
      finalRisk0 e = formatRisk e ∨ finalRisk0 e = advancedRisk e)) ∧
    (maxAiScore e ≤ finalRiskT10 e ∧ physicsScoreT1 e ≤ finalRiskT10 e ∧
     formatRisk e ≤ finalRiskT10 e ∧
     (finalRiskT10 e = maxAiScore e ∨ finalRiskT10 e = physicsScoreT1 e ∨
      finalRiskT10 e = formatRisk e)) := by
  constructor
  · refine ⟨maxAiScore_le_finalRisk0 e, physicsScore_le_finalRisk0 e,
      formatRisk_le_finalRisk0 e, advancedRisk_le_finalRisk0 e, ?_⟩
    unfold finalRisk0
    rcases max_choice (max (max (maxAiScore e) (physicsScore e)) (formatRisk e))
        (advancedRisk e) with h | h
    · rw [h]
      rcases max_choice (max (maxAiScore e) (physicsScore e)) (formatRisk e) with h2 | h2
      · rw [h2]
        rcases max_choice (maxAiScore e) (physicsScore e) with h3 | h3
        · exact Or.inl h3
        · exact Or.inr (Or.inl h3)
      · exact Or.inr (Or.inr (Or.inl h2))
    · exact Or.inr (Or.inr (Or.inr h))
  · refine ⟨le_trans (le_max_left _ _) (le_max_left _ _),
      le_trans (le_max_right _ _) (le_max_left _ _), le_max_right _ _, ?_⟩
    unfold finalRiskT10
    rcases max_choice (max (maxAiScore e) (physicsScoreT1 e)) (formatRisk e) with h | h
    · rw [h]
      rcases max_choice (maxAiScore e) (physicsScoreT1 e) with h2 | h2
      · exact Or.inl h2
      · exact Or.inr (Or.inl h2)
    · exact Or.inr (Or.inr h)

/- ------------------------------------------------------------------ -/
/- C3                                                                 -/
/- ------------------------------------------------------------------ -/

/-- Bundle refuting the first half of C3: all model scores 0, entropy and
    variance in the no-penalty range, no camera metadata, non-PNG buffer, but
    flat lighting makes advancedRisk 0.4, so the floor does not fire. -/
def flatBundleC3 : Evidence :=
  { modelScores := [0], detectionSource := "None", entropy := 7, variance := 3000,
    hasCamera := false, isPng := false, lightingFlat := true, elaMismatch := 0 }

/-- C3 counterexample: at `flatBundleC3` (which satisfies every premise of the
    claim's first sentence) the verdict risk is 0.4, not 0.45, and the method
    is "UNCERTAIN", not "HEURISTIC_UNCERTAINTY". -/
theorem uncertainty_floor_not_unconditional :
    (fuse flatBundleC3).risk ≠ 0.45 ∧
    (fuse flatBundleC3).method ≠ "HEURISTIC_UNCERTAINTY" := by
  constructor
  · norm_num [fuse, riskAfterEsc, finalRisk0, maxAiScore, physicsScore, advancedRisk,
      formatRisk, flatBundleC3, max_def, min_def]
  · norm_num [fuse, riskAfterEsc, finalRisk0, maxAiScore, physicsScore, advancedRisk,
      formatRisk, methodAfterEsc, baseMethod, flatBundleC3, max_def, min_def]
    decide

/-- C3 (amended): in titanium-v3, if all model scores are 0, entropy and
    variance are in the no-penalty range, there is no camera metadata, the
    buffer is not PNG-signatured, and additionally no advanced-forensics
    penalty fires (lighting not flat, ELA mismatch at most 0.15), then the
    verdict is exactly risk 0.45 with method "HEURISTIC_UNCERTAINTY"; and in
    full generality, whenever the fused risk before step 6 is below 0.10 and
    there is no camera metadata, the floor sets risk 0.45 and that method. -/
theorem fuse_uncertainty_floor (e : Evidence) :
    ((∀ s ∈ e.modelScores, s = 0) → 6 ≤ e.entropy → e.entropy ≤ 7.9 →
      2000 ≤ e.variance → e.hasCamera = false → e.isPng = false →
      e.lightingFlat = false → e.elaMismatch ≤ 0.15 →
      (fuse e).risk = 0.45 ∧ (fuse e).method = "HEURISTIC_UNCERTAINTY") ∧
    (riskAfterEsc e < 0.1 → e.hasCamera = false →
      (fuse e).risk = 0.45 ∧ (fuse e).method = "HEURISTIC_UNCERTAINTY") := by
  have gen : riskAfterEsc e < 0.1 → e.hasCamera = false →
      (fuse e).risk = 0.45 ∧ (fuse e).method = "HEURISTIC_UNCERTAINTY" := by
    intro h1 h2
    rw [fuse_risk_eq, fuse_method_eq, if_pos ⟨h1, h2⟩, if_pos ⟨h1, h2⟩]
    exact ⟨rfl, rfl⟩
  refine ⟨?_, gen⟩
  intro hs he1 he2 hv hc hp hl hela
  have hA : maxAiScore e = 0 := maxAiScore_eq_zero e hs
  have hP : physicsScore e = 0 := by
    unfold physicsScore
    rw [if_neg (not_lt.mpr he1), if_neg (not_lt.mpr he2), if_neg (not_lt.mpr hv)]
    norm_num
  have hAdv : advancedRisk e = 0 := by
    unfold advancedRisk
    rw [hl, if_neg (not_lt.mpr hela)]
    simp
  have hF : formatRisk e = 0 := by
    unfold formatRisk
    rw [hp]
    simp
  have h0 : finalRisk0 e = 0 := by
    unfold finalRisk0
    rw [hA, hP, hF, hAdv]
    simp
  have hre : riskAfterEsc e = 0 := by
    unfold riskAfterEsc
    rw [if_neg]
    · exact h0
    · intro hcon
      rw [hA] at hcon
      exact absurd hcon.1 (by norm_num)
  exact gen (by rw [hre]; norm_num) hc

/-- Concrete bundle satisfying all premises of the amended C3. -/
def floorBundleC3 : Evidence :=
  { modelScores := [0, 0], detectionSource := "None", entropy := 7, variance := 2500,
    hasCamera := false, isPng := false, lightingFlat := false, elaMismatch := 0.1 }

lemma floorBundleC3_scores : ∀ s ∈ floorBundleC3.modelScores, s = 0 := by
  intro s hs
  rcases List.mem_cons.mp hs with h | h
  · exact h
  · rw [List.mem_singleton] at h
    exact h

lemma floorBundleC3_facts :
    6 ≤ floorBundleC3.entropy ∧ floorBundleC3.entropy ≤ 7.9 ∧
    2000 ≤ floorBundleC3.variance ∧ floorBundleC3.elaMismatch ≤ 0.15 := by
  refine ⟨?_, ?_, ?_, ?_⟩ <;> norm_num [floorBundleC3]

/-- Witness for C3 at a concrete bundle. -/
theorem fuse_uncertainty_floor_witness :
    ((∀ s ∈ floorBundleC3.modelScores, s = 0) ∧ 6 ≤ floorBundleC3.entropy ∧
      floorBundleC3.entropy ≤ 7.9 ∧ 2000 ≤ floorBundleC3.variance ∧
      floorBundleC3.hasCamera = false ∧ floorBundleC3.isPng = false ∧
      floorBundleC3.lightingFlat = false ∧ floorBundleC3.elaMismatch ≤ 0.15) ∧
    ((fuse floorBundleC3).risk = 0.45 ∧
      (fuse floorBundleC3).method = "HEURISTIC_UNCERTAINTY") :=
  ⟨⟨floorBundleC3_scores, floorBundleC3_facts.1, floorBundleC3_facts.2.1,
      floorBundleC3_facts.2.2.1, rfl, rfl, rfl, floorBundleC3_facts.2.2.2⟩,
    (fuse_uncertainty_floor floorBundleC3).1 floorBundleC3_scores
      floorBundleC3_facts.1 floorBundleC3_facts.2.1 floorBundleC3_facts.2.2.1
      rfl rfl rfl floorBundleC3_facts.2.2.2⟩

/- ------------------------------------------------------------------ -/
/- C4                                                                 -/
/- ------------------------------------------------------------------ -/

/-- C4: if some model score exceeds 0.15 and there is no camera metadata, the
    missing-origin escalation forces the verdict risk to at least 0.90, both
    in titanium-v3 and in titanium-v1 (src/unnamed/part_004). -/
theorem missing_origin_escalation (e : Evidence)
    (hs : ∃ s ∈ e.modelScores, s > 0.15) (hc : e.hasCamera = false) :
    0.9 ≤ (fuse e).risk ∧ 0.9 ≤ (fuseT1 e).risk := by
  obtain ⟨s, hmem, hgt⟩ := hs
  have hA : maxAiScore e > 0.15 := lt_of_lt_of_le hgt (le_maxAiScore e s hmem)
  have hre : riskAfterEsc e = max (finalRisk0 e) 0.9 := by
    unfold riskAfterEsc
    rw [if_pos ⟨hA, hc⟩]
  have h9 : 0.9 ≤ riskAfterEsc e := by
    rw [hre]
    exact le_max_right _ _
  constructor
  · rw [fuse_risk_eq, if_neg]
    · exact h9
    · intro hcon
      have := hcon.1
      linarith
  · show 0.9 ≤ riskT1 e
    unfold riskT1
    rw [if_pos ⟨hA, hc⟩]
    exact le_max_right _ _

/-- Concrete bundle for the C4 witness: one weak model score 0.2, no camera. -/
def escBundleC4 : Evidence :=
  { modelScores := [0.2], detectionSource := "det", entropy := 7, variance := 3000,
    hasCamera := false, isPng := false, lightingFlat := false, elaMismatch := 0 }

lemma escBundleC4_score : ∃ s ∈ escBundleC4.modelScores, s > 0.15 := by
  refine ⟨0.2, List.mem_singleton.mpr rfl, ?_⟩
  norm_num

/-- Witness for C4 at a concrete bundle. -/
theorem missing_origin_escalation_witness :
    (∃ s ∈ escBundleC4.modelScores, s > 0.15) ∧ escBundleC4.hasCamera = false ∧
    (0.9 ≤ (fuse escBundleC4).risk ∧ 0.9 ≤ (fuseT1 escBundleC4).risk) :=
  ⟨escBundleC4_score, rfl, missing_origin_escalation escBundleC4 escBundleC4_score rfl⟩

/- ------------------------------------------------------------------ -/
/- C5                                                                 -/
/- ------------------------------------------------------------------ -/

/-- C5: formatRisk is 0.95 exactly when the buffer carries the PNG signature
    (leading bytes 0x89 0x50) and there is no camera metadata, and is 0
    otherwise; and on a PNG-signatured buffer with no camera metadata and all
    model scores 0 the fused verdict has risk at least 0.95 with the
    format-anomaly method label. -/
theorem png_format_trap (e : Evidence) (buf : List ℕ) (hbuf : e.isPng = isPngSig buf) :
    ((formatRisk e = 0.95 ↔ (isPngSig buf = true ∧ e.hasCamera = false)) ∧
     (¬(isPngSig buf = true ∧ e.hasCamera = false) → formatRisk e = 0)) ∧
    (isPngSig buf = true → e.hasCamera = false → (∀ s ∈ e.modelScores, s = 0) →
      0.95 ≤ (fuse e).risk ∧ (fuse e).method = "FORMAT_ANOMALY (PNG_NO_EXIF)") := by
  constructor
  · unfold formatRisk
    rw [hbuf]
    split_ifs with h
    · exact ⟨iff_of_true rfl h, fun hn => absurd h hn⟩
    · exact ⟨iff_of_false (by norm_num) h, fun _ => rfl⟩
  · intro hpng hcam hsz
    have hA : maxAiScore e = 0 := maxAiScore_eq_zero e hsz
    have hFmt : formatRisk e = 0.95 := by
      unfold formatRisk
      rw [hbuf, if_pos ⟨hpng, hcam⟩]
    have hge : 0.95 ≤ finalRisk0 e := hFmt ▸ formatRisk_le_finalRisk0 e
    have hnoesc : ¬(maxAiScore e > 0.15 ∧ e.hasCamera = false) := by
      intro hcon
      rw [hA] at hcon
      exact absurd hcon.1 (by norm_num)
    have hesc : riskAfterEsc e = finalRisk0 e := by
      unfold riskAfterEsc
      rw [if_neg hnoesc]
    have hnofloor : ¬(riskAfterEsc e < 0.1 ∧ e.hasCamera = false) := by
      intro hcon
      rw [hesc] at hcon
      have := hcon.1
      linarith
    constructor
    · rw [fuse_risk_eq, if_neg hnofloor, hesc]
      exact hge
    · rw [fuse_method_eq, if_neg hnofloor]
      unfold methodAfterEsc
      rw [if_neg hnoesc]
      unfold baseMethod
      rw [if_pos]
      constructor
      · rw [hFmt, hA]
        norm_num
      · rw [hFmt]
        exact lt_of_le_of_lt (physicsScore_le e) (by norm_num)

lemma nilScoresZero : ∀ s ∈ ([] : List ℚ), s = 0 :=
  fun s hs => absurd hs (List.not_mem_nil s)

/-- Concrete bundle for the C5 witness; its `isPng` flag is the sniff of the
    buffer [0x89, 0x50, 0]. -/
def pngBundleC5 : Evidence :=
  { modelScores := [], detectionSource := "None", entropy := 7, variance := 3000,
    hasCamera := false, isPng := true, lightingFlat := false, elaMismatch := 0 }

/-- Witness for C5 at a concrete bundle and buffer. -/
theorem png_format_trap_witness :
    pngBundleC5.isPng = isPngSig [137, 80, 0] ∧ isPngSig [137, 80, 0] = true ∧
    pngBundleC5.hasCamera = false ∧ (∀ s ∈ pngBundleC5.modelScores, s = 0) ∧
    (0.95 ≤ (fuse pngBundleC5).risk ∧
      (fuse pngBundleC5).method = "FORMAT_ANOMALY (PNG_NO_EXIF)") :=
  ⟨rfl, rfl, rfl, nilScoresZero,
    (png_format_trap pngBundleC5 [137, 80, 0] rfl).2 rfl rfl nilScoresZero⟩

/- ------------------------------------------------------------------ -/
/- C6                                                                 -/
/- ------------------------------------------------------------------ -/

lemma classify_iff (r : ℚ) :
    (classify r = Classification.SYNTHETIC ↔ 0.5 < r) ∧
    (classify r = Classification.ORGANIC ↔ ¬(0.5 < r)) := by
  unfold classify
  split_ifs with h
  · exact ⟨iff_of_true rfl h, iff_of_false (by decide) (not_not_intro h)⟩
  · exact ⟨iff_of_false (by decide) h, iff_of_true rfl h⟩

/-- C6: the verdict classification is SYNTHETIC exactly when the verdict risk
    exceeds 0.5, and ORGANIC otherwise — a pure threshold function of the
    final risk, in titanium-v3 and in nuclear-v1 alike. -/
theorem classification_threshold (e : Evidence) :
    ((fuse e).classification = Classification.SYNTHETIC ↔ 0.5 < (fuse e).risk) ∧
    ((fuse e).classification = Classification.ORGANIC ↔ ¬(0.5 < (fuse e).risk)) ∧
    ((fuseNuclear e).classification = Classification.SYNTHETIC ↔
      0.5 < (fuseNuclear e).risk) ∧
    ((fuseNuclear e).classification = Classification.ORGANIC ↔
      ¬(0.5 < (fuseNuclear e).risk)) := by
  refine ⟨?_, ?_, ?_, ?_⟩
  · rw [fuse_class_eq e]
    exact (classify_iff _).1
  · rw [fuse_class_eq e]
    exact (classify_iff _).2
  · exact (classify_iff (nuclearRisk e)).1
  · exact (classify_iff (nuclearRisk e)).2

/- ------------------------------------------------------------------ -/
/- C7                                                                 -/
/- ------------------------------------------------------------------ -/

/-- C7: with camera metadata present, neither the missing-origin escalation
    nor the uncertainty floor fires: the verdict risk is exactly the step-4
    fused maximum and the method is exactly the base attribution (so it gains
    neither the " + MISSING_ORIGIN" suffix nor the "HEURISTIC_UNCERTAINTY"
    label). -/
theorem camera_dampening (e : Evidence) (hc : e.hasCamera = true) :
    (fuse e).risk = finalRisk0 e ∧ (fuse e).method = baseMethod e := by
  have hne : ¬(maxAiScore e > 0.15 ∧ e.hasCamera = false) := by
    intro h
    rw [hc] at h
    exact absurd h.2 (by decide)
  have hnf : ¬(riskAfterEsc e < 0.1 ∧ e.hasCamera = false) := by
    intro h
    rw [hc] at h
    exact absurd h.2 (by decide)
  constructor
  · rw [fuse_risk_eq, if_neg hnf]
    unfold riskAfterEsc
    rw [if_neg hne]
  · rw [fuse_method_eq, if_neg hnf]
    unfold methodAfterEsc
    rw [if_neg hne]

/-- Concrete bundle for the C7 witness: every other trigger is armed (high
    model score, PNG, low entropy and variance, flat lighting, high ELA) but
    camera metadata is present. -/
def camBundleC7 : Evidence :=
  { modelScores := [0.99], detectionSource := "srcA", entropy := 3, variance := 100,
    hasCamera := true, isPng := true, lightingFlat := true, elaMismatch := 1 }

/-- Witness for C7 at a concrete bundle. -/
theorem camera_dampening_witness :
    camBundleC7.hasCamera = true ∧
    ((fuse camBundleC7).risk = finalRisk0 camBundleC7 ∧
     (fuse camBundleC7).method = baseMethod camBundleC7) :=
  ⟨rfl, camera_dampening camBundleC7 rfl⟩

/- ------------------------------------------------------------------ -/
/- C10                                                                -/
/- ------------------------------------------------------------------ -/

lemma string_append_cancel_right (x y z : String) (h : x ++ z = y ++ z) : x = y := by
  apply String.ext
  have h2 := congrArg String.data h
  rw [String.data_append, String.data_append] at h2
  exact List.append_cancel_right h2

lemma neural_ne_heuristic (s : String) :
    "NEURAL_NET (" ++ s ++ ")" ≠ "HEURISTIC_UNCERTAINTY" := by
  intro h
  have h2 : ("NEURAL_NET (" ++ s ++ ")").data = "HEURISTIC_UNCERTAINTY".data := by rw [h]
  rw [String.data_append, String.data_append] at h2
  simp at h2

lemma neural_ne_heuristic_suffix (s : String) :
    "NEURAL_NET (" ++ s ++ ")" ≠ "HEURISTIC_UNCERTAINTY + MISSING_ORIGIN" := by
  intro h
  have h2 : ("NEURAL_NET (" ++ s ++ ")").data =
      ("HEURISTIC_UNCERTAINTY + MISSING_ORIGIN" : String).data := by rw [h]
  rw [String.data_append, String.data_append] at h2
  simp at h2

lemma baseMethod_ne_heuristic (e : Evidence) : baseMethod e ≠ "HEURISTIC_UNCERTAINTY" := by
  unfold baseMethod
  split_ifs <;> first
    | decide
    | exact neural_ne_heuristic e.detectionSource

lemma baseMethod_length (e : Evidence) : 9 ≤ (baseMethod e).length := by
  unfold baseMethod
  split_ifs <;> first
    | decide
    | (rw [String.length_append, String.length_append]
       have h1 : ("NEURAL_NET (" : String).length = 12 := rfl
       have h2 : (")" : String).length = 1 := rfl
       omega)

lemma methodAfterEsc_ne_heuristic (e : Evidence) :
    methodAfterEsc e ≠ "HEURISTIC_UNCERTAINTY" := by
  unfold methodAfterEsc
  split_ifs
  · intro h
    have h2 := congrArg String.length h
    rw [String.length_append] at h2
    have h4 : (" + MISSING_ORIGIN" : String).length = 17 := rfl
    have h5 : ("HEURISTIC_UNCERTAINTY" : String).length = 21 := rfl
    have h6 : ("HEURISTIC_UNCERTAINTY" : String).length = 4 + 17 := by rw [h5]
    rw [h4] at h2
    have h7 : (baseMethod e).length = 4 := by omega
    have h8 : 9 ≤ (baseMethod e).length := baseMethod_length e
    omega
  · exact baseMethod_ne_heuristic e

/-- C10: the missing-origin escalation and the uncertainty floor are mutually
    exclusive in titanium-v3: when the escalation condition holds, the
    post-escalation risk is at least 0.90 and the floor's test cannot pass;
    a verdict with method "HEURISTIC_UNCERTAINTY" is never produced when some
    model score exceeds 0.15; and the output method is never the uncertainty
    label carrying the " + MISSING_ORIGIN" suffix. -/
theorem escalation_floor_exclusive (e : Evidence) :
    ((maxAiScore e > 0.15 ∧ e.hasCamera = false) →
      0.9 ≤ riskAfterEsc e ∧ ¬(riskAfterEsc e < 0.1)) ∧
    ((∃ s ∈ e.modelScores, s > 0.15) →
      (fuse e).method ≠ "HEURISTIC_UNCERTAINTY") ∧
    ((fuse e).method ≠ "HEURISTIC_UNCERTAINTY + MISSING_ORIGIN") := by
  refine ⟨?_, ?_, ?_⟩
  · intro h
    have h9 : 0.9 ≤ riskAfterEsc e := by
      unfold riskAfterEsc
      rw [if_pos h]
      exact le_max_right _ _
    exact ⟨h9, by intro hlt; linarith⟩
  · rintro ⟨s, hmem, hgt⟩
    have hA : maxAiScore e > 0.15 := lt_of_lt_of_le hgt (le_maxAiScore e s hmem)
    have hre : (0.15 : ℚ) < riskAfterEsc e :=
      lt_of_lt_of_le hA (le_trans (maxAiScore_le_finalRisk0 e)
        (finalRisk0_le_riskAfterEsc e))
    have hnf : ¬(riskAfterEsc e < 0.1 ∧ e.hasCamera = false) := by
      intro hcon
      have := hcon.1
      linarith
    rw [fuse_method_eq, if_neg hnf]
    exact methodAfterEsc_ne_heuristic e
  · rw [fuse_method_eq]
    split_ifs
    · decide
    · unfold methodAfterEsc
      split_ifs
      · intro h
        have hsplit : ("HEURISTIC_UNCERTAINTY + MISSING_ORIGIN" : String) =
            "HEURISTIC_UNCERTAINTY" ++ " + MISSING_ORIGIN" := rfl
        rw [hsplit] at h
        exact absurd (string_append_cancel_right _ _ _ h) (baseMethod_ne_heuristic e)
      · unfold baseMethod
        split_ifs <;> first
          | decide
          | exact neural_ne_heuristic_suffix e.detectionSource

/- ------------------------------------------------------------------ -/
/- C9                                                                 -/
/- ------------------------------------------------------------------ -/

/-- Response refuting C9: one label "ai" with confidence 0.9.  The source
    regex `/artific|fake|cg|synth/i` has no "ai" alternative, so the code
    scores this response 0, not 0.9. -/
def aiRespC9 : List LabeledScore := [{ label := "ai", score := 0.9 }]

/-- C9 counterexample: the claim's fake-label set contains "ai", but
    `queryModel` normalizes a response whose only label is "ai" (confidence
    0.9) to score 0 instead of 0.9. -/
theorem ai_label_scores_zero :
    queryNormalize (Option.some aiRespC9) = 0 ∧ (0.9 : ℚ) ≠ 0 := by
  constructor
  · rfl
  · norm_num

/-- C9 (amended): `queryModel` scores a response as follows — a failed or
    non-array response scores 0; otherwise the first label containing one of
    "artific", "fake", "cg", "synth" (case-insensitive substrings; "ai" is
    NOT in the set) contributes its confidence; otherwise the first label
    containing "real" or "human" contributes one minus its confidence;
    otherwise 0.  When all confidences are in [0,1] the score is in [0,1]. -/
theorem queryModel_normalization :
    (queryNormalize Option.none = 0) ∧
    (∀ arr x, arr.find? (fun y => labelHasAny fakePats y.label) = Option.some x →
      queryNormalize (Option.some arr) = x.score) ∧
    (∀ arr x, arr.find? (fun y => labelHasAny fakePats y.label) = Option.none →
      arr.find? (fun y => labelHasAny realPats y.label) = Option.some x →
      queryNormalize (Option.some arr) = 1 - x.score) ∧
    (∀ arr, arr.find? (fun y => labelHasAny fakePats y.label) = Option.none →
      arr.find? (fun y => labelHasAny realPats y.label) = Option.none →
      queryNormalize (Option.some arr) = 0) ∧
    (∀ arr, (∀ x ∈ arr, 0 ≤ x.score ∧ x.score ≤ 1) →
      0 ≤ queryNormalize (Option.some arr) ∧ queryNormalize (Option.some arr) ≤ 1) := by
  refine ⟨rfl, ?_, ?_, ?_, ?_⟩
  · intro arr x h
    simp only [queryNormalize, h]
  · intro arr x h1 h2
    simp only [queryNormalize, h1, h2]
  · intro arr h1 h2
    simp only [queryNormalize, h1, h2]
  · intro arr hb
    rcases hfake : arr.find? (fun y => labelHasAny fakePats y.label) with _ | x
    · rcases hreal : arr.find? (fun y => labelHasAny realPats y.label) with _ | x
      · simp only [queryNormalize, hfake, hreal]
        norm_num
      · have hx := List.mem_of_find?_eq_some hreal
        have hbx := hb x hx
        simp only [queryNormalize, hfake, hreal]
        constructor <;> linarith [hbx.1, hbx.2]
    · have hx := List.mem_of_find?_eq_some hfake
      have hbx := hb x hx
      simp only [queryNormalize, hfake]
      exact hbx

/-- Response used by the C9 witness: an inverted real-label. -/
def realRespC9 : List LabeledScore := [{ label := "REAL photo", score := 0.3 }]

/-- Witness for C9 at a concrete response. -/
theorem queryModel_normalization_witness :
    realRespC9.find? (fun y => labelHasAny fakePats y.label) = Option.none ∧
    realRespC9.find? (fun y => labelHasAny realPats y.label) =
      Option.some { label := "REAL photo", score := 0.3 } ∧
    queryNormalize (Option.some realRespC9) =
      1 - ({ label := "REAL photo", score := 0.3 } : LabeledScore).score :=
  ⟨rfl, rfl, queryModel_normalization.2.2.1 realRespC9 _ rfl rfl⟩

/- ------------------------------------------------------------------ -/
/- C8                                                                 -/
/- ------------------------------------------------------------------ -/

lemma totalCount_cons_pos (b : ℕ) (buf : List ℕ) : 0 < totalCount (b :: buf) := by
  unfold totalCount sampledBytes
  rw [List.length_map]
  apply List.length_pos_of_mem (a := 0)
  unfold sampleIdx
  rw [List.mem_filter]
  constructor
  · rw [List.mem_range]
    simp
  · simp [Nat.zero_mod]

lemma totalCount_cons_cast_ne (b : ℕ) (buf : List ℕ) :
    ((totalCount (b :: buf) : ℕ) : ℚ) ≠ 0 := by
  have h := totalCount_cons_pos b buf
  exact_mod_cast Nat.pos_iff_ne_zero.mp h

/-- C8: evaluation of `calculatePhysics` at the claim's empty-buffer input and
    totality elsewhere.  On the empty buffer the entropy is 0 as claimed, but
    the variance is `0/0`, i.e. NaN (none), not the claimed 0 — the handler
    leaks it into the JSON report.  On every non-empty buffer the mean and the
    variance are genuine finite numbers, and the sampling stride is
    `max(1, floor(bufferLength / 5000))` as claimed. -/
theorem calculatePhysics_empty_nan :
    physicsEntropy [] = 0 ∧ physicsVariance [] = Option.none ∧
    (∀ b buf, (physicsMean (b :: buf)).isSome = true ∧
      (physicsVariance (b :: buf)).isSome = true) ∧
    (∀ len, stride len = max 1 (len / 5000)) := by
  have htc : totalCount [] = 0 := rfl
  have hm : physicsMean [] = Option.none := by
    unfold physicsMean jsDiv
    rw [htc]
    simp
  refine ⟨?_, ?_, ?_, ?_⟩
  · have hcount : ∀ b, countOf [] b = 0 := fun b => rfl
    simp [physicsEntropy, hcount]
  · simp only [physicsVariance, hm]
  · intro b buf
    have hne := totalCount_cons_cast_ne b buf
    have hmean : physicsMean (b :: buf) =
        Option.some (((sampledBytes (b :: buf)).sum : ℕ) / (totalCount (b :: buf) : ℚ)) := by
      unfold physicsMean jsDiv
      rw [if_neg hne]
    constructor
    · rw [hmean]
      rfl
    · simp only [physicsVariance, hmean, jsDiv]
      rw [if_neg hne]
      rfl
  · intro len
    unfold stride
    split_ifs with h
    · rw [h]
      simp
    · rw [max_eq_right (Nat.one_le_iff_ne_zero.mpr h)]

/-- Concrete bundle for the C10 witness: one model score 0.3, no camera. -/
def exclBundleC10 : Evidence :=
  { modelScores := [0.3], detectionSource := "det", entropy := 7, variance := 3000,
    hasCamera := false, isPng := false, lightingFlat := false, elaMismatch := 0 }

lemma exclBundleC10_cond : maxAiScore exclBundleC10 > 0.15 ∧
    exclBundleC10.hasCamera = false := by
  constructor
  · norm_num [maxAiScore, exclBundleC10, max_def]
  · rfl

lemma exclBundleC10_mem : ∃ s ∈ exclBundleC10.modelScores, s > 0.15 := by
  refine ⟨0.3, List.mem_singleton.mpr rfl, ?_⟩
  norm_num

/-- Witness for C10 at a concrete bundle. -/
theorem escalation_floor_exclusive_witness :
    (maxAiScore exclBundleC10 > 0.15 ∧ exclBundleC10.hasCamera = false) ∧
    (∃ s ∈ exclBundleC10.modelScores, s > 0.15) ∧
    ((0.9 ≤ riskAfterEsc exclBundleC10 ∧ ¬(riskAfterEsc exclBundleC10 < 0.1)) ∧
     (fuse exclBundleC10).method ≠ "HEURISTIC_UNCERTAINTY" ∧
     (fuse exclBundleC10).method ≠ "HEURISTIC_UNCERTAINTY + MISSING_ORIGIN") :=
  ⟨exclBundleC10_cond, exclBundleC10_mem,
    (escalation_floor_exclusive exclBundleC10).1 exclBundleC10_cond,
    (escalation_floor_exclusive exclBundleC10).2.1 exclBundleC10_mem,
    (escalation_floor_exclusive exclBundleC10).2.2⟩
